import Mathlib

/-!
Shallow embedding of the DMR1 proxy servers.

The repository holds near-duplicate Express servers that forward client
requests to an OpenAI-compatible chat-completion API:

* `src/unnamed/part_000` — Groq-backed multi-feature server with the
  `ensureMessages` helper and the `/chat`, `/mcq`, `/summarize`,
  `/video-explainer`, `/concept-map` endpoints.
* `src/unnamed/part_001` — Groq-backed server whose `ensureMessages`,
  `/chat` and `/mcq` handlers are textually identical to the ones in
  `part_000`; the definitions below therefore model both files at once.
* `src/server.js` — three concatenated variants: an axios-based OpenAI
  proxy (`serverChat*` below), a bare Groq forwarder (`simpleChat*`), and
  a `callGroq`-helper server (`callGroq*`).

JavaScript dynamic values are embedded as a small `Json` inductive type;
property access, truthiness (`||`), nullish coalescing (`??`), object
spread and `String(...)` conversion are modelled explicitly.  `JSON.parse`
(and the body parsing performed by `r.json()` / axios) is a platform
library, not repository code, so handlers are parameterised over a
`parse : String → Except String Json` function: `Except.error e` models a
thrown `SyntaxError` with message `e`.  Each HTTP handler is split into a
request phase (client body → early 4xx response or one outbound call) and
a respond phase (upstream response → client response), mirroring the
straight-line `await fetch` structure of the source.
-/

/-- A JavaScript/JSON value.  Numbers are embedded as rationals (the
source only ever manipulates exact decimal literals such as `0.7`);
`NaN` and numeric-formatting corner cases are outside every claim. -/
inductive Json where
  | null : Json
  | bool : Bool → Json
  | num : Rat → Json
  | str : String → Json
  | arr : List Json → Json
  | obj : List (String × Json) → Json

/-- Field lookup in a JS object literal, first binding wins (the objects
built by the source never repeat a key). -/
def lookupField (fs : List (String × Json)) (k : String) : Option Json :=
  (fs.find? (fun p => p.1 == k)).map Prod.snd

/-- Property access `j.k` with optional chaining: `none` is `undefined`. -/
def getField (j : Json) (k : String) : Option Json :=
  match j with
  | Json.obj fs => lookupField fs k
  | _ => none

/-- Index access `j[i]` with optional chaining. -/
def getIndex (j : Json) (i : Nat) : Option Json :=
  match j with
  | Json.arr xs => xs.get? i
  | _ => none

/-- JavaScript truthiness: `false`, `null`, `0`, `""` are falsy; every
array and object (including `[]` and the empty object) is truthy. -/
def truthy : Json → Bool
  | Json.null => false
  | Json.bool b => b
  | Json.num n => if n = 0 then false else true
  | Json.str s => if s = "" then false else true
  | Json.arr _ => true
  | Json.obj _ => true

/-- The operator `a || b` where `a` is a possibly-undefined value. -/
def jsOr (a : Option Json) (b : Json) : Json :=
  match a with
  | some v => if truthy v then v else b
  | none => b

/-- The operator `a ?? b`: `b` only when `a` is `null` or `undefined`. -/
def jsNullish (a : Option Json) (b : Json) : Json :=
  match a with
  | some Json.null => b
  | some v => v
  | none => b

mutual
/-- The conversion `String(v)`.  Arrays join their elements with commas
(`null` elements print as the empty string, as in `Array.prototype.join`);
plain objects print as `[object Object]`.  Rational formatting
approximates JS decimal notation but agrees with it on integers, the only
numeric values the claims ever stringify. -/
def jsToString : Json → String
  | Json.null => "null"
  | Json.bool b => if b then "true" else "false"
  | Json.num n => toString n
  | Json.str s => s
  | Json.arr xs => String.intercalate "," (jsToStringList xs)
  | Json.obj _ => "[object Object]"

/-- Element-wise stringification used by array `String(...)` conversion. -/
def jsToStringList : List Json → List String
  | [] => []
  | Json.null :: xs => "" :: jsToStringList xs
  | x :: xs => jsToString x :: jsToStringList xs
end

/-- Object spread `{...base, ...extra}`: keys of `base` keep their
position but `extra`'s value wins, and keys only in `extra` follow. -/
def jsSpread (base extra : List (String × Json)) : List (String × Json) :=
  base.map (fun p =>
    match extra.find? (fun q => q.1 == p.1) with
    | some q => (p.1, q.2)
    | none => p)
  ++ extra.filter (fun q => ¬ base.any (fun p => p.1 == q.1))

/-- The literal `{ role: "user", content: s }`. -/
def userTurn (s : String) : Json :=
  Json.obj [("role", Json.str "user"), ("content", Json.str s)]

/-- An HTTP response sent back to the client: `res.status(n).json(body)`
(`res.json(body)` alone uses the default status 200). -/
structure HttpResponse where
  status : Nat
  body : Json

/-- One outbound HTTP POST to the model API: target URL, JSON body
fields in order, and the explicit request timeout when one is set
(`none` for the node-fetch calls, which configure no timeout). -/
structure OutboundCall where
  url : String
  body : List (String × Json)
  timeoutMs : Option Nat

/-- The upstream reply as the handlers observe it: `r.ok`, `r.status`,
and the raw body text (`r.text()`; `r.json()` is `parse body`). -/
structure UpstreamResponse where
  ok : Bool
  status : Nat
  body : String

/-- Request phase outcome: either an early client response (a 4xx from
input validation) or the single outbound call the handler performs. -/
def callsOf (r : Except HttpResponse OutboundCall) : List OutboundCall :=
  match r with
  | Except.error _ => []
  | Except.ok c => [c]

/-- Body fields of the outbound call, `[]` when validation failed. -/
def requestFields (r : Except HttpResponse OutboundCall) : List (String × Json) :=
  match r with
  | Except.error _ => []
  | Except.ok c => c.body

/-! ### src/unnamed/part_000 and part_001 (Groq-backed server)

Constants `GROQ_ENDPOINT` and `DEFAULT_MODEL`, the `ensureMessages`
helper, and one request/respond pair per endpoint.  `part_001` contains
byte-identical `ensureMessages`, `/chat` and `/mcq` code, so these
definitions embed both files. -/

def GROQ_ENDPOINT : String := "https://api.groq.com/openai/v1/chat/completions"

def DEFAULT_MODEL : String := "llama-3.1-8b-instant"

/-- Helper `ensureMessages(body)`: a `messages` value that is an array is
returned verbatim (`body.messages && Array.isArray(body.messages)` — every
array, the empty one included, is truthy); otherwise a truthy string
`prompt`, then a truthy string `text`, is wrapped as a single user turn;
otherwise the empty list. -/
def ensureMessages (body : Json) : List Json :=
  match getField body "messages" with
  | some (Json.arr ms) => ms
  | _ =>
    match getField body "prompt" with
    | some (Json.str p) =>
      if p = "" then
        match getField body "text" with
        | some (Json.str t) => if t = "" then [] else [userTurn t]
        | _ => []
      else [userTurn p]
    | _ =>
      match getField body "text" with
      | some (Json.str t) => if t = "" then [] else [userTurn t]
      | _ => []

/-- Request phase of `POST /chat`: empty `ensureMessages` result is
rejected with 400, otherwise one Groq call is built with
`model: body.model || DEFAULT_MODEL`, `max_tokens: body.max_tokens || 800`
and `temperature: body.temperature ?? 0.7`; node-fetch sets no timeout. -/
def chatRequest (body : Json) : Except HttpResponse OutboundCall :=
  let messages := ensureMessages body
  if messages.length = 0 then
    Except.error ⟨400, Json.obj [("error", Json.str "No prompt/messages provided")]⟩
  else
    Except.ok ⟨GROQ_ENDPOINT,
      [("model", jsOr (getField body "model") (Json.str DEFAULT_MODEL)),
       ("messages", Json.arr messages),
       ("max_tokens", jsOr (getField body "max_tokens") (Json.num 800)),
       ("temperature", jsNullish (getField body "temperature") (Json.num 0.7))],
      none⟩

/-- The chain `data.choices?.[0]`. -/
def choice0 (data : Json) : Option Json :=
  (getField data "choices").bind (fun c => getIndex c 0)

/-- The chain `data.choices?.[0]?.message?.content`. -/
def choiceContent (data : Json) : Option Json :=
  ((choice0 data).bind (fun c => getField c "message")).bind
    (fun m => getField m "content")

/-- The chain `data.choices?.[0]?.text`. -/
def choiceText (data : Json) : Option Json :=
  (choice0 data).bind (fun c => getField c "text")

/-- Respond phase of `POST /chat`: a non-ok upstream short-circuits to a
fixed 500 carrying the raw error body under `details`; otherwise the body
is parsed (a parse failure lands in the surrounding catch as
`500 {error: err.message}`) and the reply is
`content || choices[0].text || "No response from AI"`. -/
def chatRespond (parse : String → Except String Json) (up : UpstreamResponse) :
    HttpResponse :=
  if up.ok = false then
    ⟨500, Json.obj [("error", Json.str "Groq API error"), ("details", Json.str up.body)]⟩
  else
    match parse up.body with
    | Except.error e => ⟨500, Json.obj [("error", Json.str e)]⟩
    | Except.ok data =>
      ⟨200, Json.obj [("answer",
        jsOr (choiceContent data)
          (jsOr (choiceText data) (Json.str "No response from AI")))]⟩

/-- The `/mcq` line `const topic = req.body.topic || req.body.prompt || ""`. -/
def mcqTopic (body : Json) : Json :=
  jsOr (getField body "topic") (jsOr (getField body "prompt") (Json.str ""))

/-- The `/mcq` line `const count = req.body.count || 5`. -/
def mcqCount (body : Json) : Json :=
  jsOr (getField body "count") (Json.num 5)

/-- The `/mcq` template literal, with `${count}` and `${topic}`
stringified exactly as a JS template literal does. -/
def mcqPrompt (count topic : Json) : String :=
  "\nGenerate " ++ jsToString count ++ " multiple-choice questions about \""
    ++ jsToString topic
    ++ "\".\nReturn as a JSON array. Each object must have:\n\"type\":\"MCQ\",\"question\":\"...\",\"options\":[\"...\"],\"answer_index\": 0\nReturn ONLY valid JSON.\n"

/-- Request phase of `POST /mcq`: falsy resolved topic is rejected with
400 `topic required`; otherwise one Groq call with the templated single
user turn, fixed `max_tokens: 1000` and `temperature: 0.7`. -/
def mcqRequest (body : Json) : Except HttpResponse OutboundCall :=
  if truthy (mcqTopic body) = false then
    Except.error ⟨400, Json.obj [("error", Json.str "topic required")]⟩
  else
    Except.ok ⟨GROQ_ENDPOINT,
      [("model", Json.str DEFAULT_MODEL),
       ("messages", Json.arr [userTurn (mcqPrompt (mcqCount body) (mcqTopic body))]),
       ("max_tokens", Json.num 1000),
       ("temperature", Json.num 0.7)],
      none⟩

/-- The `/mcq` extraction
`data.choices?.[0]?.message?.content || data.choices?.[0]?.text || ""`. -/
def mcqRaw (data : Json) : Json :=
  jsOr (choiceContent data) (jsOr (choiceText data) (Json.str ""))

/-- Respond phase of `POST /mcq`: non-ok upstream gives the fixed 500
with `details`; otherwise `JSON.parse(raw)` (which stringifies its
argument first) returns the parsed value as the 200 body, and a parse
failure degrades to `200 {raw}`. -/
def mcqRespond (parse : String → Except String Json) (up : UpstreamResponse) :
    HttpResponse :=
  if up.ok = false then
    ⟨500, Json.obj [("error", Json.str "Groq API error"), ("details", Json.str up.body)]⟩
  else
    match parse up.body with
    | Except.error e => ⟨500, Json.obj [("error", Json.str e)]⟩
    | Except.ok data =>
      match parse (jsToString (mcqRaw data)) with
      | Except.ok parsed => ⟨200, parsed⟩
      | Except.error _ => ⟨200, Json.obj [("raw", mcqRaw data)]⟩

/-- The `/summarize` line `const input = req.body.text || req.body.prompt || ""`. -/
def summarizeInput (body : Json) : Json :=
  jsOr (getField body "text") (jsOr (getField body "prompt") (Json.str ""))

/-- The `/summarize` template literal. -/
def summarizePrompt (input : Json) : String :=
  "\nSummarize the following text in clear, simple bullet points:\n"
    ++ jsToString input ++ "\n"

/-- Request phase of `POST /summarize`: falsy input is rejected with 400
`No text provided`; otherwise one Groq call with fixed `max_tokens: 600`
and `temperature: 0.3`. -/
def summarizeRequest (body : Json) : Except HttpResponse OutboundCall :=
  if truthy (summarizeInput body) = false then
    Except.error ⟨400, Json.obj [("error", Json.str "No text provided")]⟩
  else
    Except.ok ⟨GROQ_ENDPOINT,
      [("model", Json.str DEFAULT_MODEL),
       ("messages", Json.arr [userTurn (summarizePrompt (summarizeInput body))]),
       ("max_tokens", Json.num 600),
       ("temperature", Json.num 0.3)],
      none⟩

/-- Respond phase of `POST /summarize`: the handler never consults
`r.ok` or `r.status` — it parses the body unconditionally (a parse
failure lands in the catch as `500 {error}`) and answers
`200 {summary: content || "No summary generated"}`. -/
def summarizeRespond (parse : String → Except String Json) (up : UpstreamResponse) :
    HttpResponse :=
  match parse up.body with
  | Except.error e => ⟨500, Json.obj [("error", Json.str e)]⟩
  | Except.ok data =>
    ⟨200, Json.obj [("summary",
      jsOr (choiceContent data) (Json.str "No summary generated"))]⟩

/-- The `/video-explainer` line `const input = req.body.text || ""`. -/
def videoInput (body : Json) : Json :=
  jsOr (getField body "text") (Json.str "")

/-- The `/video-explainer` template literal. -/
def videoPrompt (input : Json) : String :=
  "\nExplain this concept in a script for a 2-minute educational video with:\n- Steps explained\n- Simple analogies\n- Mark [ANIMATION] for visuals\n- Mark [VOICE] for narration\nConcept: "
    ++ jsToString input ++ "\n"

/-- Request phase of `POST /video-explainer`: falsy input is rejected
with 400 `No input provided`; otherwise one Groq call with fixed
`max_tokens: 700` and `temperature: 0.7`. -/
def videoRequest (body : Json) : Except HttpResponse OutboundCall :=
  if truthy (videoInput body) = false then
    Except.error ⟨400, Json.obj [("error", Json.str "No input provided")]⟩
  else
    Except.ok ⟨GROQ_ENDPOINT,
      [("model", Json.str DEFAULT_MODEL),
       ("messages", Json.arr [userTurn (videoPrompt (videoInput body))]),
       ("max_tokens", Json.num 700),
       ("temperature", Json.num 0.7)],
      none⟩

/-- Respond phase of `POST /video-explainer`: like `/summarize`, no
`r.ok` check; answers `200 {script: content || "No script generated"}`. -/
def videoRespond (parse : String → Except String Json) (up : UpstreamResponse) :
    HttpResponse :=
  match parse up.body with
  | Except.error e => ⟨500, Json.obj [("error", Json.str e)]⟩
  | Except.ok data =>
    ⟨200, Json.obj [("script",
      jsOr (choiceContent data) (Json.str "No script generated"))]⟩

/-- The `/concept-map` line `const concept = req.body.text || ""`. -/
def conceptInput (body : Json) : Json :=
  jsOr (getField body "text") (Json.str "")

/-- The `/concept-map` template literal (literal braces written with
escape codes). -/
def conceptPrompt (c : Json) : String :=
  "\nBuild a structured concept map for: \"" ++ jsToString c
    ++ "\".\nInclude related topics, formulas, and real-world applications.\nReturn as JSON like:\n\x7b\n  \"concept\": \"Force\",\n  \"nodes\": [\"Newton\x27s Laws\", \"Work & Energy\", \"Momentum\"],\n  \"edges\": [\x7b\"from\":\"Force\",\"to\":\"Work & Energy\"\x7d]\n\x7d\n"

/-- Request phase of `POST /concept-map`: falsy input is rejected with
400 `No concept provided`; otherwise one Groq call with fixed
`max_tokens: 800` and `temperature: 0.5`. -/
def conceptMapRequest (body : Json) : Except HttpResponse OutboundCall :=
  if truthy (conceptInput body) = false then
    Except.error ⟨400, Json.obj [("error", Json.str "No concept provided")]⟩
  else
    Except.ok ⟨GROQ_ENDPOINT,
      [("model", Json.str DEFAULT_MODEL),
       ("messages", Json.arr [userTurn (conceptPrompt (conceptInput body))]),
       ("max_tokens", Json.num 800),
       ("temperature", Json.num 0.5)],
      none⟩

/-- The `/concept-map` extraction
`const raw = data.choices?.[0]?.message?.content || "\x7b\x7d"`. -/
def conceptMapRaw (data : Json) : Json :=
  jsOr (choiceContent data) (Json.str "\x7b\x7d")

/-- Respond phase of `POST /concept-map`: no `r.ok` check; `JSON.parse`
of the raw text gives the parsed value as the 200 body, and a parse
failure degrades to `200 {raw}`. -/
def conceptMapRespond (parse : String → Except String Json) (up : UpstreamResponse) :
    HttpResponse :=
  match parse up.body with
  | Except.error e => ⟨500, Json.obj [("error", Json.str e)]⟩
  | Except.ok data =>
    match parse (jsToString (conceptMapRaw data)) with
    | Except.ok parsed => ⟨200, parsed⟩
    | Except.error _ => ⟨200, Json.obj [("raw", conceptMapRaw data)]⟩

/-! ### src/server.js, first variant (axios-based OpenAI proxy)

`POST /chat` builds
`{model: payload.model || "gpt-3.5-turbo", messages: payload.messages || [...],
max_tokens: payload.max_tokens ?? payload.max_tokens ?? 800,
temperature: payload.temperature ?? 0.2, ...payload.extra}` and posts it
with `timeout: 60_000`.  Axios rejects any non-2xx status, so both
upstream errors and timeouts land in the catch block, modelled by
`serverChatCatch` over an `AxiosError`. -/

/-- The base object literal of the `/chat` body before `...payload.extra`
is spread over it.  The doubled `??` fallback on `max_tokens` is kept as
written in the source. -/
def serverChatBase (payload : Json) : List (String × Json) :=
  [("model", jsOr (getField payload "model") (Json.str "gpt-3.5-turbo")),
   ("messages", jsOr (getField payload "messages")
      (Json.arr [Json.obj [("role", Json.str "user"),
        ("content", Json.str (jsToString (jsOr (getField payload "prompt") (Json.str ""))))]])),
   ("max_tokens", jsNullish (getField payload "max_tokens")
      (jsNullish (getField payload "max_tokens") (Json.num 800))),
   ("temperature", jsNullish (getField payload "temperature") (Json.num 0.2))]

/-- Property list contributed by `...payload.extra`: the fields of an
object value, nothing for `undefined`/`null`.  Spreading a primitive
only adds numeric-index keys, never the named keys the claims concern,
so it is likewise modelled as contributing nothing. -/
def extraFields (payload : Json) : List (String × Json) :=
  match getField payload "extra" with
  | some (Json.obj fs) => fs
  | _ => []

/-- The outbound `/chat` body: base fields with `payload.extra` spread
last, so an `extra` key overrides the corresponding base key. -/
def serverChatBodyFields (payload : Json) : List (String × Json) :=
  jsSpread (serverChatBase payload) (extraFields payload)

/-- The single outbound axios call of `/chat`, with its explicit
`timeout: 60_000` milliseconds. -/
def serverChatCall (payload : Json) : OutboundCall :=
  ⟨"https://api.openai.com/v1/chat/completions", serverChatBodyFields payload,
    some 60000⟩

/-- On axios success the upstream reply is passed through verbatim:
`res.status(resp.status).json(resp.data)`. -/
def serverChatPassThrough (status : Nat) (data : Json) : HttpResponse :=
  ⟨status, data⟩

/-- An axios rejection: `response` is present for a non-2xx upstream
reply (status and parsed data), absent for a timeout or network failure;
`message` is `err.message` and `asString` the `String(err)` coercion
used when the message is empty. -/
structure AxiosError where
  response : Option (Nat × Json)
  message : String
  asString : String

/-- The `/chat` catch block:
`status = err?.response?.status || 500` and
`data = err?.response?.data || { error: String(err?.message || err) }`. -/
def serverChatCatch (e : AxiosError) : HttpResponse :=
  let errText := if e.message = "" then e.asString else e.message
  let status := match e.response with
    | some (s, _) => if s = 0 then 500 else s
    | none => 500
  let data := match e.response with
    | some (_, d) => if truthy d then d else Json.obj [("error", Json.str errText)]
    | none => Json.obj [("error", Json.str errText)]
  ⟨status, data⟩

/-! ### src/server.js, second variant (bare Groq forwarder)

`POST /chat` posts `{model: "llama-3.1-70b-versatile",
messages: req.body.messages}` with node-fetch (no timeout, no parameter
defaults) and returns the parsed upstream body verbatim. -/

/-- Outbound body of the bare forwarder.  `JSON.stringify` drops a key
whose value is `undefined`, so an absent `messages` field is omitted;
a present value (`null` included) is forwarded verbatim. -/
def simpleChatBodyFields (body : Json) : List (String × Json) :=
  match getField body "messages" with
  | some v => [("model", Json.str "llama-3.1-70b-versatile"), ("messages", v)]
  | none => [("model", Json.str "llama-3.1-70b-versatile")]

/-- The single outbound call of the bare forwarder: no timeout option. -/
def simpleChatCall (body : Json) : OutboundCall :=
  ⟨GROQ_ENDPOINT, simpleChatBodyFields body, none⟩

/-! ### src/server.js, third variant (`callGroq` helper)

Every endpoint (`/ask`, `/sendmessage`, `/voicedoubt`, `/competitive`,
`/quiz`) funnels into `callGroq(prompt, systemMsg)`, which posts a fixed
model and a two-turn conversation with node-fetch — again no timeout and
no `max_tokens`/`temperature` fields. -/

/-- Outbound body built by `callGroq`. -/
def callGroqBody (prompt : Json) (systemMsg : String) : List (String × Json) :=
  [("model", Json.str "llama-3.1-70b-versatile"),
   ("messages", Json.arr
     [Json.obj [("role", Json.str "system"), ("content", Json.str systemMsg)],
      Json.obj [("role", Json.str "user"), ("content", prompt)]])]

/-- The single outbound call performed by `callGroq`: no timeout. -/
def callGroqCall (prompt : Json) (systemMsg : String) : OutboundCall :=
  ⟨GROQ_ENDPOINT, callGroqBody prompt systemMsg, none⟩

/-- Quoting of one string for `JSON.stringify`: double quotes and
backslashes are escaped (control-character escapes, which no value in
any claim contains, are not modelled). -/
def jsonQuote (s : String) : String :=
  "\"" ++ String.join (s.data.map (fun c =>
    if c = '"' then "\\\"" else
    if c = '\\' then "\\\\" else String.singleton c)) ++ "\""

mutual
/-- The platform conversion `JSON.stringify(v)`, used by `callGroq` to
build the error it throws on a non-ok upstream status.  Number
formatting approximates JS decimal notation but agrees with it on the
integral values the claims touch. -/
def jsonStringify : Json → String
  | Json.null => "null"
  | Json.bool b => if b then "true" else "false"
  | Json.num n => toString n
  | Json.str s => jsonQuote s
  | Json.arr xs => "[" ++ String.intercalate "," (jsonStringifyList xs) ++ "]"
  | Json.obj fs => "\x7b" ++ String.intercalate "," (jsonStringifyFields fs) ++ "\x7d"

/-- Element serialisation for `JSON.stringify` of an array. -/
def jsonStringifyList : List Json → List String
  | [] => []
  | x :: xs => jsonStringify x :: jsonStringifyList xs

/-- Field serialisation for `JSON.stringify` of an object. -/
def jsonStringifyFields : List (String × Json) → List String
  | [] => []
  | (k, v) :: fs => (jsonQuote k ++ ":" ++ jsonStringify v) :: jsonStringifyFields fs
end

/-- Strict JS property access `v.k` as performed (without optional
chaining) by `callGroq`'s `data.choices[0].message.content`: accessing a
property of `null` raises a TypeError (`Except.error`), an object yields
the property or `undefined`, and any other value yields `undefined`
(string indexing and numeric object keys, which no claim touches, are
subsumed in the `undefined` case). -/
def strictField : Json → String → Except Unit (Option Json)
  | Json.null, _ => Except.error ()
  | Json.obj fs, k => Except.ok (lookupField fs k)
  | _, _ => Except.ok none

/-- Strict property access on a possibly-`undefined` value: accessing a
property of `undefined` raises a TypeError. -/
def strictFieldO : Option Json → String → Except Unit (Option Json)
  | none, _ => Except.error ()
  | some v, k => strictField v k

/-- Strict index access `v[0]` on a possibly-`undefined` value. -/
def strictIndex : Option Json → Nat → Except Unit (Option Json)
  | none, _ => Except.error ()
  | some (Json.arr xs), i => Except.ok (xs.get? i)
  | some Json.null, _ => Except.error ()
  | some _, _ => Except.ok none

/-- The expression `data.choices[0].message.content` exactly as written
in `callGroq` — strict accesses, no optional chaining, so a missing link
raises a TypeError instead of yielding `undefined`. -/
def callGroqContent (data : Json) : Except Unit (Option Json) :=
  (strictField data "choices").bind (fun c =>
    (strictIndex c 0).bind (fun c0 =>
      (strictFieldO c0 "message").bind (fun m =>
        strictFieldO m "content")))

/-- Respond phase of the `callGroq`-based endpoints (`/ask`,
`/sendmessage`, `/voicedoubt`, `/competitive` with `wrapKey` `reply`,
`/quiz` with `wrapKey` `quiz`).  `callGroq` parses the body first
(`await groqRes.json()` precedes the status check; a parse failure
propagates to the endpoint catch as `500 {error}`), then on a non-ok
status throws `new Error(JSON.stringify(data))`, which the endpoint
catch returns as `500 {error: stringified body}`; on success the strict
extraction chain either yields the reply (a TypeError from a missing
link surfaces as a 500 whose platform-generated message is the `tyErr`
parameter, and an `undefined` reply is dropped by `res.json`, leaving
the empty object). -/
def callGroqRespond (parse : String → Except String Json) (tyErr : String)
    (wrapKey : String) (up : UpstreamResponse) : HttpResponse :=
  match parse up.body with
  | Except.error e => ⟨500, Json.obj [("error", Json.str e)]⟩
  | Except.ok data =>
    if up.ok = false then
      ⟨500, Json.obj [("error", Json.str (jsonStringify data))]⟩
    else
      match callGroqContent data with
      | Except.error _ => ⟨500, Json.obj [("error", Json.str tyErr)]⟩
      | Except.ok (some v) => ⟨200, Json.obj [(wrapKey, v)]⟩
      | Except.ok none => ⟨200, Json.obj []⟩

/-- Respond phase of the bare forwarder's `/chat`: the parsed upstream
body is passed through with the default status 200, with no status
check at all (a parse failure lands in the catch as `500 {error}`). -/
def simpleChatRespond (parse : String → Except String Json)
    (up : UpstreamResponse) : HttpResponse :=
  match parse up.body with
  | Except.error e => ⟨500, Json.obj [("error", Json.str e)]⟩
  | Except.ok data => ⟨200, data⟩

/-! ### Concrete parse functions and helper lemmas

`parseTable` builds a concrete `JSON.parse` model from a finite table,
used to instantiate the parse-parameterised theorems on concrete inputs.
The lemmas restate the branch behaviour of `ensureMessages` and
`chatRequest` under explicit hypotheses on the client body. -/

/-- A concrete `JSON.parse` model: strings in the table parse to the
associated value, every other string throws. -/
def parseTable (table : List (String × Json)) : String → Except String Json :=
  fun s =>
    match (table.find? (fun p => p.1 == s)).map Prod.snd with
    | some v => Except.ok v
    | none => Except.error "Unexpected token in JSON"

/-- The body has no `messages` field that is an array. -/
def noMessagesArray (body : Json) : Prop :=
  ∀ ms, getField body "messages" ≠ some (Json.arr ms)

/-- The named field of the body is not a truthy (non-empty) string:
absent, non-string, or the empty string. -/
def notTruthyString (body : Json) (k : String) : Prop :=
  ∀ s, getField body k = some (Json.str s) → s = ""

lemma ensureMessages_of_messages (body : Json) (ms : List Json)
    (h : getField body "messages" = some (Json.arr ms)) :
    ensureMessages body = ms := by
  unfold ensureMessages
  rw [h]

lemma ensureMessages_of_prompt (body : Json)
    (hno : noMessagesArray body) (p : String)
    (hp : getField body "prompt" = some (Json.str p)) (hne : p ≠ "") :
    ensureMessages body = [userTurn p] := by
  unfold ensureMessages
  cases hmm : getField body "messages" with
  | none => rw [hp]; simp [hne]
  | some v =>
    cases v with
    | arr ms => exact absurd hmm (hno ms)
    | null => rw [hp]; simp [hne]
    | bool b => rw [hp]; simp [hne]
    | num n => rw [hp]; simp [hne]
    | str s => rw [hp]; simp [hne]
    | obj fs => rw [hp]; simp [hne]

lemma ensureMessages_of_text (body : Json)
    (hno : noMessagesArray body) (hpn : notTruthyString body "prompt")
    (t : String) (ht : getField body "text" = some (Json.str t)) (hne : t ≠ "") :
    ensureMessages body = [userTurn t] := by
  unfold ensureMessages
  have htxt : (match getField body "text" with
      | some (Json.str t) => if t = "" then ([] : List Json) else [userTurn t]
      | _ => []) = [userTurn t] := by
    rw [ht]
    simp [hne]
  split
  · next ms heq => exact absurd heq (hno ms)
  · split
    · next p heq =>
      have : p = "" := hpn p heq
      simp [this]
      exact htxt
    · exact htxt

lemma ensureMessages_nil (body : Json) (hno : noMessagesArray body)
    (hpn : notTruthyString body "prompt") (htn : notTruthyString body "text") :
    ensureMessages body = [] := by
  unfold ensureMessages
  have htxt : (match getField body "text" with
      | some (Json.str t) => if t = "" then ([] : List Json) else [userTurn t]
      | _ => []) = [] := by
    split
    · next t heq =>
      have : t = "" := htn t heq
      simp [this]
    · rfl
  split
  · next ms heq => exact absurd heq (hno ms)
  · split
    · next p heq =>
      have : p = "" := hpn p heq
      simp [this]
      exact htxt
    · exact htxt

lemma chatRequest_of_nil (body : Json) (h : ensureMessages body = []) :
    chatRequest body =
      Except.error ⟨400, Json.obj [("error", Json.str "No prompt/messages provided")]⟩ := by
  unfold chatRequest
  rw [h]
  rfl

lemma chatRequest_of_ne_nil (body : Json) (h : ensureMessages body ≠ []) :
    chatRequest body = Except.ok ⟨GROQ_ENDPOINT,
      [("model", jsOr (getField body "model") (Json.str DEFAULT_MODEL)),
       ("messages", Json.arr (ensureMessages body)),
       ("max_tokens", jsOr (getField body "max_tokens") (Json.num 800)),
       ("temperature", jsNullish (getField body "temperature") (Json.num 0.7))],
      none⟩ := by
  unfold chatRequest
  simp [List.length_eq_zero, h]

/-- The option holds no truthy value: absent, or present and falsy. -/
def untruthyOpt (o : Option Json) : Prop :=
  ∀ v, o = some v → truthy v = false

lemma jsOr_of_truthy (v b : Json) (h : truthy v = true) : jsOr (some v) b = v := by
  unfold jsOr
  simp [h]

lemma jsOr_of_untruthy (o : Option Json) (b : Json) (h : untruthyOpt o) :
    jsOr o b = b := by
  unfold jsOr
  cases ho : o with
  | none => rfl
  | some v => simp [h v ho]

lemma callsOf_length_le_one (r : Except HttpResponse OutboundCall) :
    (callsOf r).length ≤ 1 := by
  cases r <;> simp [callsOf]

lemma mcqRequest_of_truthy (body : Json) (h : truthy (mcqTopic body) = true) :
    mcqRequest body = Except.ok ⟨GROQ_ENDPOINT,
      [("model", Json.str DEFAULT_MODEL),
       ("messages", Json.arr [userTurn (mcqPrompt (mcqCount body) (mcqTopic body))]),
       ("max_tokens", Json.num 1000),
       ("temperature", Json.num 0.7)],
      none⟩ := by
  unfold mcqRequest
  simp [h]

lemma summarizeRequest_of_truthy (body : Json)
    (h : truthy (summarizeInput body) = true) :
    summarizeRequest body = Except.ok ⟨GROQ_ENDPOINT,
      [("model", Json.str DEFAULT_MODEL),
       ("messages", Json.arr [userTurn (summarizePrompt (summarizeInput body))]),
       ("max_tokens", Json.num 600),
       ("temperature", Json.num 0.3)],
      none⟩ := by
  unfold summarizeRequest
  simp [h]

lemma videoRequest_of_truthy (body : Json) (h : truthy (videoInput body) = true) :
    videoRequest body = Except.ok ⟨GROQ_ENDPOINT,
      [("model", Json.str DEFAULT_MODEL),
       ("messages", Json.arr [userTurn (videoPrompt (videoInput body))]),
       ("max_tokens", Json.num 700),
       ("temperature", Json.num 0.7)],
      none⟩ := by
  unfold videoRequest
  simp [h]

lemma conceptMapRequest_of_truthy (body : Json)
    (h : truthy (conceptInput body) = true) :
    conceptMapRequest body = Except.ok ⟨GROQ_ENDPOINT,
      [("model", Json.str DEFAULT_MODEL),
       ("messages", Json.arr [userTurn (conceptPrompt (conceptInput body))]),
       ("max_tokens", Json.num 800),
       ("temperature", Json.num 0.5)],
      none⟩ := by
  unfold conceptMapRequest
  simp [h]

/-! ### Claim theorems -/

/-- C8: a client payload whose `messages` field is the empty array is
rejected by `/chat` with HTTP 400 "No prompt/messages provided" even when
the same payload also carries a non-empty `prompt` or `text` string,
because the empty array wins the resolution order and is returned
verbatim by `ensureMessages`. -/
theorem c8_empty_messages_rejected (body : Json)
    (h : getField body "messages" = some (Json.arr [])) :
    ensureMessages body = [] ∧
    chatRequest body =
      Except.error ⟨400, Json.obj [("error", Json.str "No prompt/messages provided")]⟩ := by
  have hm := ensureMessages_of_messages body [] h
  exact ⟨hm, chatRequest_of_nil body hm⟩

/-- C8 witness: the payload carrying an empty `messages` array together
with the non-empty prompt "hello" is rejected with 400. -/
theorem c8_empty_messages_rejected_witness :
    ensureMessages (Json.obj [("messages", Json.arr []), ("prompt", Json.str "hello")]) = []
    ∧ chatRequest (Json.obj [("messages", Json.arr []), ("prompt", Json.str "hello")]) =
      Except.error ⟨400, Json.obj [("error", Json.str "No prompt/messages provided")]⟩ :=
  c8_empty_messages_rejected
    (Json.obj [("messages", Json.arr []), ("prompt", Json.str "hello")]) rfl

/-- C2 counterexample: the code rejects a contentless payload with the
message "No prompt/messages provided" (capital N), not the claimed
message "no prompt/messages provided"; at the empty payload the handler
returns the former, and the two message strings differ. -/
theorem c2_resolution_counterexample :
    chatRequest (Json.obj []) =
      Except.error ⟨400, Json.obj [("error", Json.str "No prompt/messages provided")]⟩
    ∧ "No prompt/messages provided" ≠ "no prompt/messages provided" :=
  ⟨rfl, by decide⟩

/-- C2 (amended): the Normalizer resolves a client payload in this fixed
order, first match winning — a `messages` array is used verbatim; else a
truthy string `prompt` field yields exactly one turn with role `user` and
the prompt as content; else a truthy string `text` field yields exactly
one such turn; else the request fails with HTTP 400 and message
"No prompt/messages provided" (the code capitalises the first word of
the message quoted by the claim). -/
theorem c2_resolution_amended (body : Json) :
    (∀ ms, getField body "messages" = some (Json.arr ms) → ensureMessages body = ms)
    ∧ (noMessagesArray body → ∀ p, getField body "prompt" = some (Json.str p) → p ≠ "" →
        ensureMessages body = [userTurn p])
    ∧ (noMessagesArray body → notTruthyString body "prompt" →
        ∀ t, getField body "text" = some (Json.str t) → t ≠ "" →
        ensureMessages body = [userTurn t])
    ∧ (noMessagesArray body → notTruthyString body "prompt" → notTruthyString body "text" →
        chatRequest body =
          Except.error ⟨400, Json.obj [("error", Json.str "No prompt/messages provided")]⟩) := by
  refine ⟨?_, ?_, ?_, ?_⟩
  · exact fun ms h => ensureMessages_of_messages body ms h
  · exact fun hno p hp hne => ensureMessages_of_prompt body hno p hp hne
  · exact fun hno hpn t ht hne => ensureMessages_of_text body hno hpn t ht hne
  · exact fun hno hpn htn =>
      chatRequest_of_nil body (ensureMessages_nil body hno hpn htn)

/-- C2 witness: a prompt-only payload "X" yields exactly one user turn
with content "X", a text-only payload "T" yields one user turn "T", a
verbatim messages array wins over a prompt, and the empty payload is
rejected with the 400 message. -/
theorem c2_resolution_witness :
    ensureMessages (Json.obj [("prompt", Json.str "X")]) = [userTurn "X"]
    ∧ ensureMessages (Json.obj [("text", Json.str "T")]) = [userTurn "T"]
    ∧ ensureMessages (Json.obj [("messages", Json.arr [userTurn "a"]), ("prompt", Json.str "X")])
        = [userTurn "a"]
    ∧ chatRequest (Json.obj []) =
        Except.error ⟨400, Json.obj [("error", Json.str "No prompt/messages provided")]⟩ := by
  refine ⟨?_, ?_, ?_, ?_⟩
  · exact (c2_resolution_amended (Json.obj [("prompt", Json.str "X")])).2.1
      (fun ms h => by simp [getField, lookupField, List.find?] at h)
      "X" rfl (by decide)
  · exact (c2_resolution_amended (Json.obj [("text", Json.str "T")])).2.2.1
      (fun ms h => by simp [getField, lookupField, List.find?] at h)
      (fun s h => by simp [getField, lookupField, List.find?] at h)
      "T" rfl (by decide)
  · exact (c2_resolution_amended
      (Json.obj [("messages", Json.arr [userTurn "a"]), ("prompt", Json.str "X")])).1
      [userTurn "a"] rfl
  · exact (c2_resolution_amended (Json.obj [])).2.2.2
      (fun ms h => by simp [getField, lookupField, List.find?] at h)
      (fun s h => by simp [getField, lookupField, List.find?] at h)
      (fun s h => by simp [getField, lookupField, List.find?] at h)

/-- C9: the part_000/part_001 `/chat` handler treats an explicit
`max_tokens` of 0 as absent (the `||` default replaces it with 800),
while an explicit `temperature` of 0 survives the `??` default and is
sent upstream unchanged; likewise an empty-string `prompt` (or `text`)
field is treated as absent by `ensureMessages`. -/
theorem c9_zero_and_empty_values (body : Json) :
    (getField body "max_tokens" = some (Json.num 0) → ensureMessages body ≠ [] →
      lookupField (requestFields (chatRequest body)) "max_tokens" = some (Json.num 800))
    ∧ (getField body "temperature" = some (Json.num 0) → ensureMessages body ≠ [] →
      lookupField (requestFields (chatRequest body)) "temperature" = some (Json.num 0))
    ∧ (getField body "messages" = none → getField body "prompt" = some (Json.str "") →
        ∀ t, getField body "text" = some (Json.str t) → t ≠ "" →
        ensureMessages body = [userTurn t])
    ∧ (getField body "messages" = none → getField body "prompt" = some (Json.str "") →
        notTruthyString body "text" → ensureMessages body = []) := by
  have hno : getField body "messages" = none → noMessagesArray body := by
    intro hm ms hh
    rw [hm] at hh
    exact Option.noConfusion hh
  have hpn : getField body "prompt" = some (Json.str "") → notTruthyString body "prompt" := by
    intro hp s hs
    rw [hp] at hs
    simp at hs
    exact hs.symm
  refine ⟨?_, ?_, ?_, ?_⟩
  · intro h hne
    rw [chatRequest_of_ne_nil body hne, h]
    rfl
  · intro h hne
    rw [chatRequest_of_ne_nil body hne, h]
    rfl
  · intro hm hp t ht hne
    exact ensureMessages_of_text body (hno hm) (hpn hp) t ht hne
  · intro hm hp htn
    exact ensureMessages_nil body (hno hm) (hpn hp) htn

/-- C9 witness: with prompt "hi", `max_tokens: 0` and `temperature: 0`,
the outbound call carries `max_tokens: 800` but `temperature: 0`; a
payload with empty prompt and text "T" resolves to the "T" turn; a
payload with only an empty prompt resolves to no turns. -/
theorem c9_zero_and_empty_values_witness :
    lookupField (requestFields (chatRequest (Json.obj [("prompt", Json.str "hi"),
      ("max_tokens", Json.num 0), ("temperature", Json.num 0)]))) "max_tokens"
      = some (Json.num 800)
    ∧ lookupField (requestFields (chatRequest (Json.obj [("prompt", Json.str "hi"),
      ("max_tokens", Json.num 0), ("temperature", Json.num 0)]))) "temperature"
      = some (Json.num 0)
    ∧ ensureMessages (Json.obj [("prompt", Json.str ""), ("text", Json.str "T")])
      = [userTurn "T"]
    ∧ ensureMessages (Json.obj [("prompt", Json.str "")]) = [] := by
  refine ⟨?_, ?_, ?_, ?_⟩
  · exact (c9_zero_and_empty_values _).1 rfl
      (by simp [show ensureMessages (Json.obj [("prompt", Json.str "hi"),
        ("max_tokens", Json.num 0), ("temperature", Json.num 0)]) = [userTurn "hi"] from rfl])
  · exact (c9_zero_and_empty_values _).2.1 rfl
      (by simp [show ensureMessages (Json.obj [("prompt", Json.str "hi"),
        ("max_tokens", Json.num 0), ("temperature", Json.num 0)]) = [userTurn "hi"] from rfl])
  · exact (c9_zero_and_empty_values
      (Json.obj [("prompt", Json.str ""), ("text", Json.str "T")])).2.2.1
      rfl rfl "T" rfl (by decide)
  · exact (c9_zero_and_empty_values (Json.obj [("prompt", Json.str "")])).2.2.2 rfl rfl
      (fun s h => by simp [getField, lookupField, List.find?] at h)

/-- The named field of the body is absent or the empty string. -/
def absentOrEmpty (body : Json) (k : String) : Prop :=
  getField body k = none ∨ getField body k = some (Json.str "")

/-- C10: for `/mcq`, a missing `count` defaults to 5, a missing (or
empty) `topic` falls back to the payload's `prompt` field, only when
both `topic` and `prompt` are absent or empty does the endpoint fail
with HTTP 400 "topic required" (a non-empty string in either field
yields an outbound call instead), and the outbound prompt is the
template requesting exactly `count` questions about the resolved
topic. -/
theorem c10_mcq_defaults (body : Json) :
    (getField body "count" = none → mcqCount body = Json.num 5)
    ∧ (absentOrEmpty body "topic" → ∀ p, getField body "prompt" = some (Json.str p) →
        p ≠ "" → mcqTopic body = Json.str p)
    ∧ (absentOrEmpty body "topic" → absentOrEmpty body "prompt" →
        mcqRequest body = Except.error ⟨400, Json.obj [("error", Json.str "topic required")]⟩)
    ∧ (∀ s, getField body "topic" = some (Json.str s) → s ≠ "" →
        truthy (mcqTopic body) = true)
    ∧ (absentOrEmpty body "topic" → ∀ p, getField body "prompt" = some (Json.str p) →
        p ≠ "" → truthy (mcqTopic body) = true)
    ∧ (truthy (mcqTopic body) = true →
        mcqRequest body = Except.ok ⟨GROQ_ENDPOINT,
          [("model", Json.str DEFAULT_MODEL),
           ("messages", Json.arr [userTurn (mcqPrompt (mcqCount body) (mcqTopic body))]),
           ("max_tokens", Json.num 1000),
           ("temperature", Json.num 0.7)], none⟩
        ∧ ∀ resp, mcqRequest body ≠ Except.error resp) := by
  refine ⟨?_, ?_, ?_, ?_, ?_, ?_⟩
  · intro h
    unfold mcqCount
    rw [h]
    rfl
  · intro ht p hp hne
    rcases ht with h | h <;>
      (unfold mcqTopic; rw [h, hp]; simp [jsOr, truthy, hne])
  · intro ht hp
    have htop : truthy (mcqTopic body) = false := by
      unfold mcqTopic
      rcases ht with h | h <;> rcases hp with h2 | h2 <;>
        simp [h, h2, jsOr, truthy]
    unfold mcqRequest
    simp [htop]
  · intro s h hne
    unfold mcqTopic
    rw [h]
    simp [jsOr, truthy, hne]
  · intro ht p hp hne
    rcases ht with h | h <;>
      (unfold mcqTopic; rw [h, hp]; simp [jsOr, truthy, hne])
  · intro h
    refine ⟨mcqRequest_of_truthy body h, fun resp => ?_⟩
    rw [mcqRequest_of_truthy body h]
    simp

/-- C10 witness: the empty payload has `count` 5 and fails with 400; a
prompt-only payload resolves the topic to the prompt; the payload with
topic "Photosynthesis" and count 3 produces the outbound call whose one
user turn is the template instantiated with 3 and "Photosynthesis". -/
theorem c10_mcq_defaults_witness :
    mcqCount (Json.obj []) = Json.num 5
    ∧ mcqTopic (Json.obj [("prompt", Json.str "P")]) = Json.str "P"
    ∧ mcqRequest (Json.obj []) =
        Except.error ⟨400, Json.obj [("error", Json.str "topic required")]⟩
    ∧ mcqRequest (Json.obj [("topic", Json.str "Photosynthesis"), ("count", Json.num 3)]) =
        Except.ok ⟨GROQ_ENDPOINT,
          [("model", Json.str DEFAULT_MODEL),
           ("messages", Json.arr
             [userTurn (mcqPrompt (Json.num 3) (Json.str "Photosynthesis"))]),
           ("max_tokens", Json.num 1000),
           ("temperature", Json.num 0.7)], none⟩ := by
  refine ⟨?_, ?_, ?_, ?_⟩
  · exact (c10_mcq_defaults (Json.obj [])).1 rfl
  · exact (c10_mcq_defaults (Json.obj [("prompt", Json.str "P")])).2.1
      (Or.inl rfl) "P" rfl (by decide)
  · exact (c10_mcq_defaults (Json.obj [])).2.2.1 (Or.inl rfl) (Or.inl rfl)
  · exact ((c10_mcq_defaults (Json.obj [("topic", Json.str "Photosynthesis"),
      ("count", Json.num 3)])).2.2.2.2.2 rfl).1

/-- C3: in structured mode (`/mcq` and `/concept-map`), after a
successful upstream call the handler attempts `JSON.parse` on the
extracted text: on success the 200 response body is the parsed value
unchanged, on parse failure it is the object with the raw text under
`raw`, and in both cases the status is 200 — a parse failure is never
reported as an error status. -/
theorem c3_structured_parse_or_raw (parse : String → Except String Json)
    (up : UpstreamResponse) (data : Json)
    (hok : up.ok = true) (hparse : parse up.body = Except.ok data) :
    (∀ v, parse (jsToString (mcqRaw data)) = Except.ok v →
        mcqRespond parse up = ⟨200, v⟩)
    ∧ (∀ e, parse (jsToString (mcqRaw data)) = Except.error e →
        mcqRespond parse up = ⟨200, Json.obj [("raw", mcqRaw data)]⟩)
    ∧ (∀ v, parse (jsToString (conceptMapRaw data)) = Except.ok v →
        conceptMapRespond parse up = ⟨200, v⟩)
    ∧ (∀ e, parse (jsToString (conceptMapRaw data)) = Except.error e →
        conceptMapRespond parse up = ⟨200, Json.obj [("raw", conceptMapRaw data)]⟩)
    ∧ (mcqRespond parse up).status = 200
    ∧ (conceptMapRespond parse up).status = 200 := by
  unfold mcqRespond conceptMapRespond
  simp only [hok, hparse]
  refine ⟨?_, ?_, ?_, ?_, ?_, ?_⟩
  · intro v hv
    simp [hv]
  · intro e he
    simp [he]
  · intro v hv
    simp [hv]
  · intro e he
    simp [he]
  · cases hv : parse (jsToString (mcqRaw data)) <;> simp [hv]
  · cases hv : parse (jsToString (conceptMapRaw data)) <;> simp [hv]

/-- C3 witness: with upstream text "not json" (not parseable), `/mcq`
returns status 200 with body raw: "not json"; with upstream text the
JSON array of "a" and "b", `/concept-map` returns that parsed array
unchanged. -/
theorem c3_structured_parse_or_raw_witness :
    mcqRespond
      (parseTable [("B1", Json.obj [("choices", Json.arr [Json.obj
        [("message", Json.obj [("content", Json.str "not json")])]])])])
      ⟨true, 200, "B1"⟩
      = ⟨200, Json.obj [("raw", Json.str "not json")]⟩
    ∧ conceptMapRespond
      (parseTable [("B2", Json.obj [("choices", Json.arr [Json.obj
          [("message", Json.obj [("content", Json.str "[\"a\",\"b\"]")])]])]),
        ("[\"a\",\"b\"]", Json.arr [Json.str "a", Json.str "b"])])
      ⟨true, 200, "B2"⟩
      = ⟨200, Json.arr [Json.str "a", Json.str "b"]⟩ := by
  constructor
  · exact (c3_structured_parse_or_raw
      (parseTable [("B1", Json.obj [("choices", Json.arr [Json.obj
        [("message", Json.obj [("content", Json.str "not json")])]])])])
      ⟨true, 200, "B1"⟩
      (Json.obj [("choices", Json.arr [Json.obj
        [("message", Json.obj [("content", Json.str "not json")])]])])
      rfl rfl).2.1 "Unexpected token in JSON" rfl
  · exact (c3_structured_parse_or_raw
      (parseTable [("B2", Json.obj [("choices", Json.arr [Json.obj
          [("message", Json.obj [("content", Json.str "[\"a\",\"b\"]")])]])]),
        ("[\"a\",\"b\"]", Json.arr [Json.str "a", Json.str "b"])])
      ⟨true, 200, "B2"⟩
      (Json.obj [("choices", Json.arr [Json.obj
        [("message", Json.obj [("content", Json.str "[\"a\",\"b\"]")])]])])
      rfl rfl).2.2.1 (Json.arr [Json.str "a", Json.str "b"]) rfl

/-- C5 counterexample: extraction follows JS truthiness, not field
presence.  With a successful upstream whose first choice carries a
present-but-empty `message.content` ("") and a legacy `text` field
"hello", `/chat` answers "hello", whereas taking the first PRESENT field
would answer the empty string; and the two differ. -/
theorem c5_extraction_counterexample :
    chatRespond
      (parseTable [("B3", Json.obj [("choices", Json.arr [Json.obj
        [("message", Json.obj [("content", Json.str "")]),
         ("text", Json.str "hello")]])])])
      ⟨true, 200, "B3"⟩
      = ⟨200, Json.obj [("answer", Json.str "hello")]⟩
    ∧ choiceContent (Json.obj [("choices", Json.arr [Json.obj
        [("message", Json.obj [("content", Json.str "")]),
         ("text", Json.str "hello")]])]) = some (Json.str "")
    ∧ Json.str "hello" ≠ Json.str "" :=
  ⟨rfl, rfl, by simp⟩

/-- C5 (amended): for a successful upstream response, `/chat` (and
`/mcq`) take the generated text from the first JS-truthy — not merely
present — of the primary choice's `message.content` and the legacy
choice `text` field, falling back to the fixed string
"No response from AI" (`/chat`) when neither is truthy; `/summarize`
(like `/video-explainer` and `/concept-map`) consults only
`message.content` with its own fallback and ignores the legacy `text`
field; in every endpoint, extraction from a successfully parsed upstream
body never produces an error status: the response status is 200. -/
theorem c5_extraction_amended (parse : String → Except String Json)
    (up : UpstreamResponse) (data : Json)
    (hok : up.ok = true) (hparse : parse up.body = Except.ok data) :
    (∀ v, choiceContent data = some v → truthy v = true →
        chatRespond parse up = ⟨200, Json.obj [("answer", v)]⟩)
    ∧ (untruthyOpt (choiceContent data) → ∀ w, choiceText data = some w →
        truthy w = true → chatRespond parse up = ⟨200, Json.obj [("answer", w)]⟩)
    ∧ (untruthyOpt (choiceContent data) → untruthyOpt (choiceText data) →
        chatRespond parse up = ⟨200, Json.obj [("answer", Json.str "No response from AI")]⟩)
    ∧ (∀ v, choiceContent data = some v → truthy v = true →
        summarizeRespond parse up = ⟨200, Json.obj [("summary", v)]⟩)
    ∧ (untruthyOpt (choiceContent data) → ∀ w, choiceText data = some w →
        summarizeRespond parse up
          = ⟨200, Json.obj [("summary", Json.str "No summary generated")]⟩)
    ∧ (chatRespond parse up).status = 200
    ∧ (mcqRespond parse up).status = 200
    ∧ (summarizeRespond parse up).status = 200
    ∧ (videoRespond parse up).status = 200
    ∧ (conceptMapRespond parse up).status = 200 := by
  unfold chatRespond summarizeRespond videoRespond
  simp only [hok, hparse]
  refine ⟨?_, ?_, ?_, ?_, ?_, ?_, ?_, ?_, ?_, ?_⟩
  · intro v hv htr
    rw [hv]
    simp [jsOr_of_truthy v _ htr]
  · intro hc w hw htr
    rw [jsOr_of_untruthy _ _ hc, hw]
    simp [jsOr_of_truthy w _ htr]
  · intro hc ht
    rw [jsOr_of_untruthy _ _ hc, jsOr_of_untruthy _ _ ht]
    simp
  · intro v hv htr
    rw [hv]
    simp [jsOr_of_truthy v _ htr]
  · intro hc w hw
    rw [jsOr_of_untruthy _ _ hc]
  · simp
  · cases hv : parse (jsToString (mcqRaw data)) <;>
      simp [mcqRespond, hok, hparse, hv]
  · simp
  · simp
  · cases hv : parse (jsToString (conceptMapRaw data)) <;>
      simp [conceptMapRespond, hparse, hv]

/-- C5 witness: with a truthy `message.content` of "Hi there", `/chat`
answers it; with only a legacy `text` field "legacy", `/summarize` falls
back to "No summary generated" (ignoring the legacy field) while the
status stays 200. -/
theorem c5_extraction_amended_witness :
    chatRespond
      (parseTable [("B4", Json.obj [("choices", Json.arr [Json.obj
        [("message", Json.obj [("content", Json.str "Hi there")])]])])])
      ⟨true, 200, "B4"⟩
      = ⟨200, Json.obj [("answer", Json.str "Hi there")]⟩
    ∧ summarizeRespond
      (parseTable [("B5", Json.obj [("choices", Json.arr [Json.obj
        [("text", Json.str "legacy")]])])])
      ⟨true, 200, "B5"⟩
      = ⟨200, Json.obj [("summary", Json.str "No summary generated")]⟩ := by
  constructor
  · exact (c5_extraction_amended
      (parseTable [("B4", Json.obj [("choices", Json.arr [Json.obj
        [("message", Json.obj [("content", Json.str "Hi there")])]])])])
      ⟨true, 200, "B4"⟩
      (Json.obj [("choices", Json.arr [Json.obj
        [("message", Json.obj [("content", Json.str "Hi there")])]])])
      rfl rfl).1 (Json.str "Hi there") rfl rfl
  · exact (c5_extraction_amended
      (parseTable [("B5", Json.obj [("choices", Json.arr [Json.obj
        [("text", Json.str "legacy")]])])])
      ⟨true, 200, "B5"⟩
      (Json.obj [("choices", Json.arr [Json.obj [("text", Json.str "legacy")]])])
      rfl rfl).2.2.2.2.1
      (fun v h => Option.noConfusion h) (Json.str "legacy") rfl

/-- C1 counterexample: not every endpoint surfaces an upstream failure.
Given a non-success upstream reply (ok false, status 401) with body
`\x7b"error":"bad key"\x7d`, the `/summarize` handler still performs
extraction and returns status 200 with the fallback summary instead of
an UpstreamError response. -/
theorem c1_upstream_error_counterexample :
    summarizeRespond
      (parseTable [("\x7b\"error\":\"bad key\"\x7d",
        Json.obj [("error", Json.str "bad key")])])
      ⟨false, 401, "\x7b\"error\":\"bad key\"\x7d"⟩
      = ⟨200, Json.obj [("summary", Json.str "No summary generated")]⟩
    ∧ (UpstreamResponse.ok ⟨false, 401, "\x7b\"error\":\"bad key\"\x7d"⟩) = false
    ∧ (200 : Nat) ≠ 500 :=
  ⟨rfl, rfl, by decide⟩

/-- C1 (amended): upstream non-success handling varies by endpoint
rather than following the claimed uniform rule.  The handlers that do
check the status are `/chat` and `/mcq` of part_000/part_001 — on
non-success they skip extraction and return a fixed HTTP 500 whose body
carries the raw upstream error body verbatim under `details` (the
upstream status code itself is logged, not returned) — and the
`callGroq`-based endpoints of the third server.js variant, whose 500
carries the JSON-stringified parsed upstream body under `error`; the
axios-based server.js `/chat` catch clause carries both the upstream
status code and body verbatim when present and truthy.  By contrast
`/summarize`, `/video-explainer` and `/concept-map` ignore the upstream
status entirely — their response depends only on the upstream body
text — and the bare forwarder's `/chat` passes the parsed upstream body
through with status 200 regardless of the upstream status. -/
theorem c1_upstream_error_amended :
    (∀ parse up, up.ok = false → chatRespond parse up =
        ⟨500, Json.obj [("error", Json.str "Groq API error"),
          ("details", Json.str up.body)]⟩)
    ∧ (∀ parse up, up.ok = false → mcqRespond parse up =
        ⟨500, Json.obj [("error", Json.str "Groq API error"),
          ("details", Json.str up.body)]⟩)
    ∧ (∀ parse tyErr wrapKey up data, up.ok = false →
        parse (UpstreamResponse.body up) = Except.ok data →
        callGroqRespond parse tyErr wrapKey up =
          ⟨500, Json.obj [("error", Json.str (jsonStringify data))]⟩)
    ∧ (∀ parse up up', UpstreamResponse.body up = UpstreamResponse.body up' →
        summarizeRespond parse up = summarizeRespond parse up')
    ∧ (∀ parse up up', UpstreamResponse.body up = UpstreamResponse.body up' →
        videoRespond parse up = videoRespond parse up')
    ∧ (∀ parse up up', UpstreamResponse.body up = UpstreamResponse.body up' →
        conceptMapRespond parse up = conceptMapRespond parse up')
    ∧ (∀ parse up data, parse (UpstreamResponse.body up) = Except.ok data →
        simpleChatRespond parse up = ⟨200, data⟩)
    ∧ (∀ e s d, AxiosError.response e = some (s, d) → s ≠ 0 → truthy d = true →
        serverChatCatch e = ⟨s, d⟩) := by
  refine ⟨?_, ?_, ?_, ?_, ?_, ?_, ?_, ?_⟩
  · intro parse up h
    unfold chatRespond
    simp [h]
  · intro parse up h
    unfold mcqRespond
    simp [h]
  · intro parse tyErr wrapKey up data hok hparse
    unfold callGroqRespond
    rw [hparse]
    simp [hok]
  · intro parse up up' h
    unfold summarizeRespond
    rw [h]
  · intro parse up up' h
    unfold videoRespond
    rw [h]
  · intro parse up up' h
    unfold conceptMapRespond
    rw [h]
  · intro parse up data hparse
    unfold simpleChatRespond
    rw [hparse]
  · intro e s d he hs hd
    unfold serverChatCatch
    rw [he]
    simp [hs, hd]

/-- C1 witness: the part_000 `/chat` handler maps the 401 upstream reply
with body `\x7b"error":"bad key"\x7d` to the fixed 500 response carrying
that body verbatim; the `callGroq`-based `/ask` maps the same 401 reply
to a 500 whose error field is the stringified parsed body; the bare
forwarder passes the parsed error body through with status 200; and the
server.js catch clause passes both the 401 status and the parsed error
body through. -/
theorem c1_upstream_error_amended_witness :
    chatRespond (parseTable [])
      ⟨false, 401, "\x7b\"error\":\"bad key\"\x7d"⟩
      = ⟨500, Json.obj [("error", Json.str "Groq API error"),
          ("details", Json.str "\x7b\"error\":\"bad key\"\x7d")]⟩
    ∧ callGroqRespond
      (parseTable [("\x7b\"error\":\"bad key\"\x7d",
        Json.obj [("error", Json.str "bad key")])])
      "TypeError" "reply"
      ⟨false, 401, "\x7b\"error\":\"bad key\"\x7d"⟩
      = ⟨500, Json.obj [("error", Json.str "\x7b\"error\":\"bad key\"\x7d")]⟩
    ∧ simpleChatRespond
      (parseTable [("\x7b\"error\":\"bad key\"\x7d",
        Json.obj [("error", Json.str "bad key")])])
      ⟨false, 401, "\x7b\"error\":\"bad key\"\x7d"⟩
      = ⟨200, Json.obj [("error", Json.str "bad key")]⟩
    ∧ serverChatCatch
      ⟨some (401, Json.obj [("error", Json.str "bad key")]),
        "Request failed with status code 401", "Error"⟩
      = ⟨401, Json.obj [("error", Json.str "bad key")]⟩ :=
  ⟨c1_upstream_error_amended.1 (parseTable [])
      ⟨false, 401, "\x7b\"error\":\"bad key\"\x7d"⟩ rfl,
   c1_upstream_error_amended.2.2.1
      (parseTable [("\x7b\"error\":\"bad key\"\x7d",
        Json.obj [("error", Json.str "bad key")])])
      "TypeError" "reply"
      ⟨false, 401, "\x7b\"error\":\"bad key\"\x7d"⟩
      (Json.obj [("error", Json.str "bad key")]) rfl rfl,
   c1_upstream_error_amended.2.2.2.2.2.2.1
      (parseTable [("\x7b\"error\":\"bad key\"\x7d",
        Json.obj [("error", Json.str "bad key")])])
      ⟨false, 401, "\x7b\"error\":\"bad key\"\x7d"⟩
      (Json.obj [("error", Json.str "bad key")]) rfl,
   c1_upstream_error_amended.2.2.2.2.2.2.2
      ⟨some (401, Json.obj [("error", Json.str "bad key")]),
        "Request failed with status code 401", "Error"⟩
      401 (Json.obj [("error", Json.str "bad key")]) rfl (by decide) rfl⟩

/-- C4 counterexample: in the axios-based server.js `/chat`, a payload
that omits `temperature` gets the default 0.2, not the claimed 0.7: on
the empty payload the outbound body carries `temperature: 0.2`, and 0.2
differs from 0.7. -/
theorem c4_defaults_counterexample :
    lookupField (serverChatBodyFields (Json.obj [])) "temperature" = some (Json.num 0.2)
    ∧ Json.num 0.2 ≠ Json.num 0.7 :=
  ⟨rfl, by intro h; injection h with h2; norm_num at h2⟩

/-- C4 (amended): when the client payload omits them, the outbound
generation parameters are: part_000/part_001 `/chat` `max_tokens` 800
and `temperature` 0.7; `/mcq` fixed 1000 and 0.7; `/summarize` fixed 600
and 0.3; `/video-explainer` fixed 700 and 0.7; `/concept-map` fixed 800
and 0.5; the axios server.js `/chat` `max_tokens` 800 but `temperature`
0.2 (not 0.7); and the two remaining fetch variants send no `max_tokens`
or `temperature` field at all. -/
theorem c4_defaults_amended :
    (∀ body, getField body "max_tokens" = none → getField body "temperature" = none →
        ensureMessages body ≠ [] →
        lookupField (requestFields (chatRequest body)) "max_tokens" = some (Json.num 800)
        ∧ lookupField (requestFields (chatRequest body)) "temperature" = some (Json.num 0.7))
    ∧ (∀ body, truthy (mcqTopic body) = true →
        lookupField (requestFields (mcqRequest body)) "max_tokens" = some (Json.num 1000)
        ∧ lookupField (requestFields (mcqRequest body)) "temperature" = some (Json.num 0.7))
    ∧ (∀ body, truthy (summarizeInput body) = true →
        lookupField (requestFields (summarizeRequest body)) "max_tokens" = some (Json.num 600)
        ∧ lookupField (requestFields (summarizeRequest body)) "temperature" = some (Json.num 0.3))
    ∧ (∀ body, truthy (videoInput body) = true →
        lookupField (requestFields (videoRequest body)) "max_tokens" = some (Json.num 700)
        ∧ lookupField (requestFields (videoRequest body)) "temperature" = some (Json.num 0.7))
    ∧ (∀ body, truthy (conceptInput body) = true →
        lookupField (requestFields (conceptMapRequest body)) "max_tokens" = some (Json.num 800)
        ∧ lookupField (requestFields (conceptMapRequest body)) "temperature" = some (Json.num 0.5))
    ∧ (∀ payload, getField payload "max_tokens" = none →
        getField payload "temperature" = none →
        lookupField (extraFields payload) "max_tokens" = none →
        lookupField (extraFields payload) "temperature" = none →
        lookupField (serverChatBodyFields payload) "max_tokens" = some (Json.num 800)
        ∧ lookupField (serverChatBodyFields payload) "temperature" = some (Json.num 0.2))
    ∧ (∀ body, lookupField (simpleChatBodyFields body) "max_tokens" = none
        ∧ lookupField (simpleChatBodyFields body) "temperature" = none)
    ∧ (∀ prompt sys, lookupField (callGroqBody prompt sys) "max_tokens" = none
        ∧ lookupField (callGroqBody prompt sys) "temperature" = none) := by
  refine ⟨?_, ?_, ?_, ?_, ?_, ?_, ?_, ?_⟩
  · intro body h1 h2 hne
    rw [chatRequest_of_ne_nil body hne, h1, h2]
    exact ⟨rfl, rfl⟩
  · intro body h
    rw [mcqRequest_of_truthy body h]
    exact ⟨rfl, rfl⟩
  · intro body h
    rw [summarizeRequest_of_truthy body h]
    exact ⟨rfl, rfl⟩
  · intro body h
    rw [videoRequest_of_truthy body h]
    exact ⟨rfl, rfl⟩
  · intro body h
    rw [conceptMapRequest_of_truthy body h]
    exact ⟨rfl, rfl⟩
  · intro payload h1 h2 hx1 hx2
    have fx1 : (extraFields payload).find? (fun q => q.1 == "max_tokens") = none := by
      unfold lookupField at hx1
      exact Option.map_eq_none'.mp hx1
    have fx2 : (extraFields payload).find? (fun q => q.1 == "temperature") = none := by
      unfold lookupField at hx2
      exact Option.map_eq_none'.mp hx2
    unfold serverChatBodyFields jsSpread serverChatBase lookupField
    rw [h1, h2]
    rcases hm : (extraFields payload).find? (fun q => q.1 == "model") with _ | qm <;>
      rcases hms : (extraFields payload).find? (fun q => q.1 == "messages") with _ | qms <;>
        simp [List.find?, hm, hms, fx1, fx2, jsNullish]
  · intro body
    unfold simpleChatBodyFields
    cases hm : getField body "messages" <;> exact ⟨rfl, rfl⟩
  · intro prompt sys
    exact ⟨rfl, rfl⟩

/-- C4 witness: part_000 `/chat` on a prompt-only payload sends
`max_tokens: 800` and `temperature: 0.7`; `/summarize` on a text-only
payload sends `temperature: 0.3`; the axios server.js `/chat` on the
empty payload sends `max_tokens: 800` and `temperature: 0.2`. -/
theorem c4_defaults_amended_witness :
    lookupField (requestFields (chatRequest (Json.obj [("prompt", Json.str "hi")])))
      "max_tokens" = some (Json.num 800)
    ∧ lookupField (requestFields (chatRequest (Json.obj [("prompt", Json.str "hi")])))
      "temperature" = some (Json.num 0.7)
    ∧ lookupField (requestFields (summarizeRequest (Json.obj [("text", Json.str "T")])))
      "temperature" = some (Json.num 0.3)
    ∧ lookupField (serverChatBodyFields (Json.obj [])) "max_tokens" = some (Json.num 800)
    ∧ lookupField (serverChatBodyFields (Json.obj [])) "temperature" = some (Json.num 0.2) := by
  have hchat := c4_defaults_amended.1 (Json.obj [("prompt", Json.str "hi")]) rfl rfl
    (by simp [show ensureMessages (Json.obj [("prompt", Json.str "hi")])
      = [userTurn "hi"] from rfl])
  have hsum := c4_defaults_amended.2.2.1 (Json.obj [("text", Json.str "T")]) rfl
  have hsrv := c4_defaults_amended.2.2.2.2.2.1 (Json.obj []) rfl rfl rfl rfl
  exact ⟨hchat.1, hchat.2, hsum.2, hsrv.1, hsrv.2⟩

/-- C6 counterexample: forwarding is not unconditional in the axios
server.js `/chat` — `...payload.extra` is spread last and can override
`messages`.  On the payload with a one-turn messages array and an
`extra` object defining `messages: "hijack"`, the outbound body carries
the string "hijack" instead of the client's turn sequence. -/
theorem c6_forwarding_counterexample :
    lookupField (serverChatBodyFields (Json.obj
      [("messages", Json.arr [userTurn "hi"]),
       ("extra", Json.obj [("messages", Json.str "hijack")])])) "messages"
      = some (Json.str "hijack")
    ∧ Json.str "hijack" ≠ Json.arr [userTurn "hi"] :=
  ⟨rfl, fun h => Json.noConfusion h⟩

/-- C6 (amended): for every client payload whose `messages` field is a
(non-empty) array, the sequence is forwarded with order and role labels
exactly preserved, element for element: `ensureMessages` returns it
verbatim and the part_000/part_001 `/chat` outbound body embeds it
unchanged; the axios server.js `/chat` forwards it verbatim provided
`payload.extra` does not itself define a `messages` key (which would
override it); and the bare forwarder passes any present `messages` value
through verbatim. -/
theorem c6_forwarding_amended :
    (∀ body ms, getField body "messages" = some (Json.arr ms) →
        ensureMessages body = ms)
    ∧ (∀ body ms, getField body "messages" = some (Json.arr ms) → ms ≠ [] →
        lookupField (requestFields (chatRequest body)) "messages" = some (Json.arr ms))
    ∧ (∀ payload ms, getField payload "messages" = some (Json.arr ms) →
        lookupField (extraFields payload) "messages" = none →
        lookupField (serverChatBodyFields payload) "messages" = some (Json.arr ms))
    ∧ (∀ body v, getField body "messages" = some v →
        lookupField (simpleChatBodyFields body) "messages" = some v) := by
  refine ⟨?_, ?_, ?_, ?_⟩
  · exact fun body ms h => ensureMessages_of_messages body ms h
  · intro body ms h hms
    have hm := ensureMessages_of_messages body ms h
    have hne : ensureMessages body ≠ [] := by rw [hm]; exact hms
    rw [chatRequest_of_ne_nil body hne, hm]
    rfl
  · intro payload ms hmsg hx
    have fx : (extraFields payload).find? (fun q => q.1 == "messages") = none := by
      unfold lookupField at hx
      exact Option.map_eq_none'.mp hx
    unfold serverChatBodyFields jsSpread serverChatBase lookupField
    rw [hmsg]
    rcases hm : (extraFields payload).find? (fun q => q.1 == "model") with _ | qm <;>
      simp [List.find?, hm, fx, jsOr, truthy]
  · intro body v h
    unfold simpleChatBodyFields
    rw [h]
    rfl

/-- C6 witness: a two-turn conversation with distinct roles is forwarded
verbatim by `ensureMessages`, by the part_000 `/chat` outbound body, by
the axios server.js `/chat` body (no `extra` present), and by the bare
forwarder. -/
theorem c6_forwarding_amended_witness :
    ensureMessages (Json.obj [("messages", Json.arr
      [Json.obj [("role", Json.str "system"), ("content", Json.str "S")],
       userTurn "U"])])
      = [Json.obj [("role", Json.str "system"), ("content", Json.str "S")], userTurn "U"]
    ∧ lookupField (requestFields (chatRequest (Json.obj [("messages", Json.arr
        [Json.obj [("role", Json.str "system"), ("content", Json.str "S")],
         userTurn "U"])]))) "messages"
      = some (Json.arr
        [Json.obj [("role", Json.str "system"), ("content", Json.str "S")], userTurn "U"])
    ∧ lookupField (serverChatBodyFields (Json.obj [("messages", Json.arr
        [Json.obj [("role", Json.str "system"), ("content", Json.str "S")],
         userTurn "U"])])) "messages"
      = some (Json.arr
        [Json.obj [("role", Json.str "system"), ("content", Json.str "S")], userTurn "U"])
    ∧ lookupField (simpleChatBodyFields (Json.obj [("messages", Json.arr
        [Json.obj [("role", Json.str "system"), ("content", Json.str "S")],
         userTurn "U"])])) "messages"
      = some (Json.arr
        [Json.obj [("role", Json.str "system"), ("content", Json.str "S")], userTurn "U"]) := by
  refine ⟨?_, ?_, ?_, ?_⟩
  · exact c6_forwarding_amended.1 _ _ rfl
  · exact c6_forwarding_amended.2.1 _ _ rfl (by simp)
  · exact c6_forwarding_amended.2.2.1 _ _ rfl rfl
  · exact c6_forwarding_amended.2.2.2 _ _ rfl

/-- C7 counterexample: the outbound call is not bounded by the claimed
60-second ceiling in the node-fetch variants.  On the prompt-only
payload, the single call built by the part_000 `/chat` handler sets no
timeout at all, and no timeout differs from the 60000 ms bound. -/
theorem c7_timeout_counterexample :
    (callsOf (chatRequest (Json.obj [("prompt", Json.str "hi")]))).map
      OutboundCall.timeoutMs = [none]
    ∧ (none : Option Nat) ≠ some 60000 :=
  ⟨rfl, by simp⟩

/-- C7 (amended): every handler performs at most one outbound call per
inbound request and never retries (exactly one once validation passes);
only the axios-based server.js `/chat` bounds its call with a 60000 ms
timeout, whose expiry lands in the catch clause as an HTTP 500 carrying
the error message; every node-fetch call — all part_000/part_001
endpoints, the bare forwarder and `callGroq` — sets no timeout. -/
theorem c7_timeout_amended :
    (∀ body, (callsOf (chatRequest body)).length ≤ 1
      ∧ (callsOf (mcqRequest body)).length ≤ 1
      ∧ (callsOf (summarizeRequest body)).length ≤ 1
      ∧ (callsOf (videoRequest body)).length ≤ 1
      ∧ (callsOf (conceptMapRequest body)).length ≤ 1)
    ∧ (∀ body, ensureMessages body ≠ [] → (callsOf (chatRequest body)).length = 1)
    ∧ (∀ body c, chatRequest body = Except.ok c → c.timeoutMs = none)
    ∧ (∀ body c, mcqRequest body = Except.ok c → c.timeoutMs = none)
    ∧ (∀ body c, summarizeRequest body = Except.ok c → c.timeoutMs = none)
    ∧ (∀ body c, videoRequest body = Except.ok c → c.timeoutMs = none)
    ∧ (∀ body c, conceptMapRequest body = Except.ok c → c.timeoutMs = none)
    ∧ (∀ body, (simpleChatCall body).timeoutMs = none)
    ∧ (∀ prompt sys, (callGroqCall prompt sys).timeoutMs = none)
    ∧ (∀ payload, (serverChatCall payload).timeoutMs = some 60000)
    ∧ (∀ e, AxiosError.response e = none → AxiosError.message e ≠ "" →
        serverChatCatch e = ⟨500, Json.obj [("error", Json.str (AxiosError.message e))]⟩) := by
  refine ⟨?_, ?_, ?_, ?_, ?_, ?_, ?_, ?_, ?_, ?_, ?_⟩
  · exact fun body => ⟨callsOf_length_le_one _, callsOf_length_le_one _,
      callsOf_length_le_one _, callsOf_length_le_one _, callsOf_length_le_one _⟩
  · intro body h
    rw [chatRequest_of_ne_nil body h]
    rfl
  · intro body c h
    by_cases hnil : ensureMessages body = []
    · rw [chatRequest_of_nil body hnil] at h
      exact Except.noConfusion h
    · rw [chatRequest_of_ne_nil body hnil] at h
      injection h with h2
      rw [← h2]
  · intro body c h
    unfold mcqRequest at h
    split at h
    · exact Except.noConfusion h
    · injection h with h2
      rw [← h2]
  · intro body c h
    unfold summarizeRequest at h
    split at h
    · exact Except.noConfusion h
    · injection h with h2
      rw [← h2]
  · intro body c h
    unfold videoRequest at h
    split at h
    · exact Except.noConfusion h
    · injection h with h2
      rw [← h2]
  · intro body c h
    unfold conceptMapRequest at h
    split at h
    · exact Except.noConfusion h
    · injection h with h2
      rw [← h2]
  · intro body
    rfl
  · intro prompt sys
    rfl
  · intro payload
    rfl
  · intro e h1 h2
    unfold serverChatCatch
    rw [h1]
    simp [h2]

/-- C7 witness: the prompt-only payload triggers exactly one outbound
call from part_000 `/chat`, that call carries no timeout, and an axios
timeout error (no upstream response) surfaces as a 500 with the timeout
message. -/
theorem c7_timeout_amended_witness :
    (callsOf (chatRequest (Json.obj [("prompt", Json.str "hi")]))).length = 1
    ∧ OutboundCall.timeoutMs ⟨GROQ_ENDPOINT,
        [("model", Json.str "llama-3.1-8b-instant"),
         ("messages", Json.arr [userTurn "hi"]),
         ("max_tokens", Json.num 800),
         ("temperature", Json.num 0.7)], none⟩ = none
    ∧ serverChatCatch ⟨none, "timeout of 60000ms exceeded", "Error"⟩ =
        ⟨500, Json.obj [("error", Json.str "timeout of 60000ms exceeded")]⟩ :=
  ⟨c7_timeout_amended.2.1 (Json.obj [("prompt", Json.str "hi")])
      (by simp [show ensureMessages (Json.obj [("prompt", Json.str "hi")])
        = [userTurn "hi"] from rfl]),
   c7_timeout_amended.2.2.1 (Json.obj [("prompt", Json.str "hi")])
      ⟨GROQ_ENDPOINT,
        [("model", Json.str "llama-3.1-8b-instant"),
         ("messages", Json.arr [userTurn "hi"]),
         ("max_tokens", Json.num 800),
         ("temperature", Json.num 0.7)], none⟩ rfl,
   c7_timeout_amended.2.2.2.2.2.2.2.2.2.2
      ⟨none, "timeout of 60000ms exceeded", "Error"⟩ rfl (by decide)⟩
